import Mathlib

/-!
Verification of the flow-scribe-sync-agent pipeline (canonical implementation:
src/server.cjs) against its natural-language specification.

The embedding models:
- the Klaviyo client's retry helper (`retryWithBackoff`, server.cjs 35-53) and
  the status-reclassification performed in its `fetch` catch block (178-186);
- the Klaviyo client's `getFlowActions` / `getFlowMessages` with their
  id validation, included-list extraction, and failure accumulator (223-348);
- the Airtable client's `sanitiseCreateRow` and batched `createRecords`
  (498-601), tracking issued network requests and pacing delays;
- the orchestrator `syncKlaviyoToAirtable` (607-825).

Errors are JS `Error` objects carrying an optional numeric `status`; async
control flow is modelled with `Except`, and the environment (network
outcomes) is passed in explicitly.  Timer waits are recorded as data
(delay lists / counters) rather than performed.
-/

namespace FlowScribe

/-- A JS `Error` as thrown by the clients: a message plus the optional
`status` / `retryAfter` fields the code attaches. -/
structure JsError where
  status : Option Int
  message : String
  retryAfter : Option Int
  deriving Repr, DecidableEq

/-- `error.status === 429 || error.status >= 500` (server.cjs line 43); a
missing status compares false in JS. -/
def isRetryableError (e : JsError) : Bool :=
  match e.status with
  | some st => st == 429 || st ≥ 500
  | none => false

/-- Result of a retried operation: the final outcome plus the list of backoff
delays (in ms) that were awaited, in order. -/
structure RetryTrace (α : Type) where
  result : Except JsError α
  delays : List ℚ
  deriving Repr

/-- The loop body of `retryWithBackoff` (server.cjs 35-53).  `attempt` is the
number of retries already consumed (`retries` before the increment); `fn n`
is the outcome of the call made with `retries = n`.  `fuel` bounds the
recursion; started at `maxRetries` it is never exhausted before the
`retries > maxRetries` guard fires. -/
def retryLoop {α : Type} (fn : Nat → Except JsError α) (maxRetries : Nat)
    (initialDelay : ℚ) (jitter : Nat → ℚ) (attempt fuel : Nat) : RetryTrace α :=
  match fn attempt with
  | .ok a => ⟨.ok a, []⟩
  | .error e =>
    if attempt + 1 > maxRetries || !(isRetryableError e) then
      ⟨.error e, []⟩
    else
      match fuel with
      | 0 => ⟨.error e, []⟩
      | fuel' + 1 =>
        let d := initialDelay * 2 ^ attempt * jitter (attempt + 1)
        let rest := retryLoop fn maxRetries initialDelay jitter (attempt + 1) fuel'
        ⟨rest.result, d :: rest.delays⟩

/-- `retryWithBackoff(fn)` with the default `maxRetries = 3`,
`initialDelay = 2000`.  The jitter factor drawn on the n-th retry is
supplied as `jitter n` (the code draws `0.8 + Math.random() * 0.4`). -/
def retryWithBackoff {α : Type} (fn : Nat → Except JsError α)
    (jitter : Nat → ℚ) : RetryTrace α :=
  retryLoop fn 3 2000 jitter 0 3

/-- Decidable substring test standing in for JS `String.prototype.includes`:
does `pat` start `hay`? -/
def charsStartWith : List Char → List Char → Bool
  | _, [] => true
  | [], _ :: _ => false
  | a :: as, b :: bs => a == b && charsStartWith as bs

/-- Does `pat` occur contiguously inside `hay`? -/
def charsHaveSub (hay pat : List Char) : Bool :=
  match hay with
  | [] => charsStartWith [] pat
  | _ :: t => charsStartWith hay pat || charsHaveSub t pat

/-- JS `s.includes(pat)`. -/
def strIncludes (s pat : String) : Bool :=
  charsHaveSub s.toList pat.toList

/-- The catch-block reclassification in `KlaviyoApiClient.fetch`
(server.cjs 178-186): an error with no status gets status 429 if its message
contains "429", else 500 if its message contains "50". -/
def reclassifyError (e : JsError) : JsError :=
  if e.status.isNone && !(e.message == "") && strIncludes e.message "429" then
    { e with status := some 429 }
  else if e.status.isNone && !(e.message == "") && strIncludes e.message "50" then
    { e with status := some 500 }
  else e

/-- `KlaviyoApiClient.fetch`'s request wrapper: each raw attempt outcome is
passed through the catch-block reclassification before the retry policy
sees it (server.cjs 55-198). -/
def klaviyoFetch {α : Type} (raw : Nat → Except JsError α)
    (jitter : Nat → ℚ) : RetryTrace α :=
  retryWithBackoff
    (fun n => match raw n with
      | .ok a => .ok a
      | .error e => .error (reclassifyError e))
    jitter

lemma retryLoop_ok {α : Type} {fn : Nat → Except JsError α} {a : α}
    (mr : Nat) (d : ℚ) (jitter : Nat → ℚ) (attempt fuel : Nat)
    (h : fn attempt = .ok a) :
    retryLoop fn mr d jitter attempt fuel = ⟨.ok a, []⟩ := by
  rw [retryLoop, h]

lemma retryLoop_error_stop {α : Type} {fn : Nat → Except JsError α} {e : JsError}
    (mr : Nat) (d : ℚ) (jitter : Nat → ℚ) (attempt fuel : Nat)
    (h : fn attempt = .error e)
    (hc : (decide (attempt + 1 > mr) || !(isRetryableError e)) = true) :
    retryLoop fn mr d jitter attempt fuel = ⟨.error e, []⟩ := by
  rw [retryLoop, h]
  simp only [hc, if_true]

lemma retryLoop_error_cont {α : Type} {fn : Nat → Except JsError α} {e : JsError}
    (mr : Nat) (d : ℚ) (jitter : Nat → ℚ) (attempt fuel : Nat)
    (h : fn attempt = .error e)
    (hc : (decide (attempt + 1 > mr) || !(isRetryableError e)) = false) :
    retryLoop fn mr d jitter attempt (fuel + 1) =
      ⟨(retryLoop fn mr d jitter (attempt + 1) fuel).result,
        d * 2 ^ attempt * jitter (attempt + 1) ::
          (retryLoop fn mr d jitter (attempt + 1) fuel).delays⟩ := by
  rw [retryLoop, h]
  simp only [hc, Bool.false_eq_true, if_false]

lemma retryLoop_delays_length_le {α : Type} (fn : Nat → Except JsError α)
    (mr : Nat) (d : ℚ) (jitter : Nat → ℚ) (attempt fuel : Nat) :
    (retryLoop fn mr d jitter attempt fuel).delays.length ≤ fuel := by
  induction fuel generalizing attempt with
  | zero =>
    cases h : fn attempt with
    | ok a => rw [retryLoop_ok mr d jitter attempt 0 h]; simp
    | error e =>
      rw [retryLoop, h]
      split
      · simp
      · simp
  | succ fuel' ih =>
    cases h : fn attempt with
    | ok a => rw [retryLoop_ok mr d jitter attempt (fuel' + 1) h]; simp
    | error e =>
      by_cases hc : (decide (attempt + 1 > mr) || !(isRetryableError e)) = true
      · rw [retryLoop_error_stop mr d jitter attempt (fuel' + 1) h hc]; simp
      · rw [retryLoop_error_cont mr d jitter attempt fuel' h
          (Bool.eq_false_iff.mpr hc)]
        simpa using Nat.succ_le_succ (ih (attempt + 1))

/-- C2: the Klaviyo retry helper retries errors with status 429 or >= 500 at
most 3 times; the delay before the n-th retry is
`initialDelay * 2^(n-1) * jitter` with `initialDelay = 2000` and jitter in
[0.8, 1.2); exhausting the 3 retries re-raises the last error; a 4xx status
other than 429 propagates immediately with no retry. -/
theorem c2_retry_policy {α : Type} (fn : Nat → Except JsError α)
    (jitter : Nat → ℚ) (hj : ∀ n, 4 / 5 ≤ jitter n ∧ jitter n < 6 / 5) :
    ((∀ i, i ≤ 3 → ∃ e, fn i = .error e ∧ isRetryableError e = true) →
      (retryWithBackoff fn jitter).result = fn 3 ∧
      (retryWithBackoff fn jitter).delays =
        [2000 * 2 ^ 0 * jitter 1, 2000 * 2 ^ 1 * jitter 2,
          2000 * 2 ^ 2 * jitter 3] ∧
      ∀ n, n < 3 →
        2000 * 2 ^ n * (4 / 5) ≤ (retryWithBackoff fn jitter).delays.getD n 0 ∧
        (retryWithBackoff fn jitter).delays.getD n 0 < 2000 * 2 ^ n * (6 / 5)) ∧
    (∀ e st, fn 0 = .error e → e.status = some st → 400 ≤ st → st < 500 →
      st ≠ 429 →
      (retryWithBackoff fn jitter).result = .error e ∧
      (retryWithBackoff fn jitter).delays = []) ∧
    (retryWithBackoff fn jitter).delays.length ≤ 3 := by
  refine ⟨?_, ?_, retryLoop_delays_length_le fn 3 2000 jitter 0 3⟩
  · intro hall
    obtain ⟨e0, hf0, hr0⟩ := hall 0 (by norm_num)
    obtain ⟨e1, hf1, hr1⟩ := hall 1 (by norm_num)
    obtain ⟨e2, hf2, hr2⟩ := hall 2 (by norm_num)
    obtain ⟨e3, hf3, hr3⟩ := hall 3 (by norm_num)
    have h0 := retryLoop_error_cont 3 2000 jitter 0 2 hf0
      (by simp [hr0])
    have h1 := retryLoop_error_cont 3 2000 jitter 1 1 hf1
      (by simp [hr1])
    have h2 := retryLoop_error_cont 3 2000 jitter 2 0 hf2
      (by simp [hr2])
    have h3 := retryLoop_error_stop 3 2000 jitter 3 0 hf3
      (by simp)
    have hrun : retryWithBackoff fn jitter =
        ⟨.error e3,
          [2000 * 2 ^ 0 * jitter 1, 2000 * 2 ^ 1 * jitter 2,
            2000 * 2 ^ 2 * jitter 3]⟩ := by
      rw [retryWithBackoff, h0, h1, h2, h3]
    refine ⟨by rw [hrun, hf3], by rw [hrun], ?_⟩
    intro n hn
    rw [hrun]
    interval_cases n
    · simpa using ⟨by nlinarith [(hj 1).1], by nlinarith [(hj 1).2]⟩
    · simpa using ⟨by nlinarith [(hj 2).1], by nlinarith [(hj 2).2]⟩
    · simpa using ⟨by nlinarith [(hj 3).1], by nlinarith [(hj 3).2]⟩
  · intro e st hf0 hst h400 h500 h429
    have hnr : isRetryableError e = false := by
      simp only [isRetryableError, hst]
      simp only [Bool.or_eq_false_iff, beq_eq_false_iff_ne, ne_eq,
        decide_eq_false_iff_not, not_le]
      exact ⟨h429, by omega⟩
    have h0 := retryLoop_error_stop 3 2000 jitter 0 3 hf0
      (by simp [hnr])
    rw [retryWithBackoff, h0]
    exact ⟨rfl, rfl⟩

/-- C2 witness: a permanently failing 500 endpoint with unit jitter yields
delays 2000, 4000, 8000 and re-raises the final error; a 404 yields no
retries. -/
theorem c2_retry_policy_witness :
    (retryWithBackoff
        (fun _ => (.error ⟨some 500, "server error", none⟩ :
          Except JsError Unit)) (fun _ => 1)).delays = [2000, 4000, 8000] ∧
    (retryWithBackoff
        (fun _ => (.error ⟨some 500, "server error", none⟩ :
          Except JsError Unit)) (fun _ => 1)).result =
      .error ⟨some 500, "server error", none⟩ ∧
    (retryWithBackoff
        (fun _ => (.error ⟨some 404, "not found", none⟩ :
          Except JsError Unit)) (fun _ => 1)).delays = [] := by
  have h5 := c2_retry_policy
    (fun _ => (.error ⟨some 500, "server error", none⟩ : Except JsError Unit))
    (fun _ => 1) (by intro n; norm_num)
  have h4 := c2_retry_policy
    (fun _ => (.error ⟨some 404, "not found", none⟩ : Except JsError Unit))
    (fun _ => 1) (by intro n; norm_num)
  obtain ⟨ha, -, -⟩ := h5
  obtain ⟨hres, hdel, -⟩ := ha (by intro i _; exact ⟨_, rfl, rfl⟩)
  obtain ⟨-, hb, -⟩ := h4
  obtain ⟨-, hbdel⟩ := hb ⟨some 404, "not found", none⟩ 404 rfl rfl
    (by norm_num) (by norm_num) (by norm_num)
  refine ⟨?_, hres, hbdel⟩
  rw [hdel]
  norm_num

lemma retryWithBackoff_const_error {α : Type} (fn : Nat → Except JsError α)
    (e : JsError) (jitter : Nat → ℚ) (hfn : ∀ i, fn i = .error e)
    (hre : isRetryableError e = true) :
    retryWithBackoff fn jitter =
      ⟨.error e,
        [2000 * 2 ^ 0 * jitter 1, 2000 * 2 ^ 1 * jitter 2,
          2000 * 2 ^ 2 * jitter 3]⟩ := by
  have h0 := retryLoop_error_cont 3 2000 jitter 0 2 (hfn 0)
    (by simp [hre])
  have h1 := retryLoop_error_cont 3 2000 jitter 1 1 (hfn 1)
    (by simp [hre])
  have h2 := retryLoop_error_cont 3 2000 jitter 2 0 (hfn 2)
    (by simp [hre])
  have h3 := retryLoop_error_stop 3 2000 jitter 3 0 (hfn 3)
    (by simp)
  rw [retryWithBackoff, h0, h1, h2, h3]

lemma retryWithBackoff_first_nonretryable {α : Type}
    (fn : Nat → Except JsError α) (e : JsError) (jitter : Nat → ℚ)
    (hfn : fn 0 = .error e) (hre : isRetryableError e = false) :
    retryWithBackoff fn jitter = ⟨.error e, []⟩ := by
  have h0 := retryLoop_error_stop 3 2000 jitter 0 3 hfn
    (by simp [hre])
  rw [retryWithBackoff, h0]

/-- C10: in the Klaviyo fetch helper, a caught error with no status code is
reclassified by message substring — "429" in the message assigns status 429,
otherwise "50" in the message assigns status 500, making the error retryable
(3 retries with backoff); statusless errors whose message contains neither
substring are never retried. -/
theorem c10_statusless_reclassified_by_substring {α : Type} (m : String)
    (hm : ¬ m = "") (jitter : Nat → ℚ) (raw : Nat → Except JsError α)
    (hraw : ∀ i, raw i = .error ⟨none, m, none⟩) :
    (strIncludes m "429" = true →
      reclassifyError ⟨none, m, none⟩ = ⟨some 429, m, none⟩ ∧
      (klaviyoFetch raw jitter).delays.length = 3 ∧
      (klaviyoFetch raw jitter).result = .error ⟨some 429, m, none⟩) ∧
    (strIncludes m "429" = false → strIncludes m "50" = true →
      reclassifyError ⟨none, m, none⟩ = ⟨some 500, m, none⟩ ∧
      (klaviyoFetch raw jitter).delays.length = 3 ∧
      (klaviyoFetch raw jitter).result = .error ⟨some 500, m, none⟩) ∧
    (strIncludes m "429" = false → strIncludes m "50" = false →
      (klaviyoFetch raw jitter).delays = [] ∧
      (klaviyoFetch raw jitter).result = .error ⟨none, m, none⟩) := by
  have hm' : (m == "") = false := by simpa using hm
  refine ⟨?_, ?_, ?_⟩
  · intro h429
    have hrecl : reclassifyError ⟨none, m, none⟩ = ⟨some 429, m, none⟩ := by
      simp [reclassifyError, hm', h429]
    have hrun := retryWithBackoff_const_error
      (fun n => match raw n with
        | .ok a => .ok a
        | .error e => .error (reclassifyError e))
      ⟨some 429, m, none⟩ jitter
      (by intro i; simp only [hraw i]; rw [hrecl]) (by simp [isRetryableError])
    rw [klaviyoFetch, hrun]
    exact ⟨hrecl, rfl, rfl⟩
  · intro h429 h50
    have hrecl : reclassifyError ⟨none, m, none⟩ = ⟨some 500, m, none⟩ := by
      simp [reclassifyError, hm', h429, h50]
    have hrun := retryWithBackoff_const_error
      (fun n => match raw n with
        | .ok a => .ok a
        | .error e => .error (reclassifyError e))
      ⟨some 500, m, none⟩ jitter
      (by intro i; simp only [hraw i]; rw [hrecl]) (by simp [isRetryableError])
    rw [klaviyoFetch, hrun]
    exact ⟨hrecl, rfl, rfl⟩
  · intro h429 h50
    have hrecl : reclassifyError ⟨none, m, none⟩ = ⟨none, m, none⟩ := by
      simp [reclassifyError, hm', h429, h50]
    have hrun := retryWithBackoff_first_nonretryable
      (fun n => match raw n with
        | .ok a => .ok a
        | .error e => .error (reclassifyError e))
      ⟨none, m, none⟩ jitter
      (by simp only [hraw 0]; rw [hrecl]) (by simp [isRetryableError])
    rw [klaviyoFetch, hrun]
    exact ⟨rfl, rfl⟩

/-- C10 witness: a statusless parse error whose message merely contains "50"
is retried 3 times; a statusless message containing neither "429" nor "50"
is not retried. -/
theorem c10_statusless_reclassified_by_substring_witness :
    (klaviyoFetch
        (fun _ => (.error ⟨none, "Failed to parse JSON response: pos 50", none⟩ :
          Except JsError Unit)) (fun _ => 1)).delays.length = 3 ∧
    (klaviyoFetch
        (fun _ => (.error ⟨none, "socket hang up", none⟩ :
          Except JsError Unit)) (fun _ => 1)).delays = [] := by
  have h50 := c10_statusless_reclassified_by_substring
    "Failed to parse JSON response: pos 50" (by decide) (fun _ => 1)
    (fun _ => (.error ⟨none, "Failed to parse JSON response: pos 50", none⟩ :
      Except JsError Unit)) (fun i => rfl)
  have hno := c10_statusless_reclassified_by_substring "socket hang up"
    (by decide) (fun _ => 1)
    (fun _ => (.error ⟨none, "socket hang up", none⟩ : Except JsError Unit))
    (fun i => rfl)
  obtain ⟨-, hb, -⟩ := h50
  obtain ⟨-, hlen, -⟩ := hb (by decide) (by decide)
  obtain ⟨-, -, hc⟩ := hno
  obtain ⟨hdel, -⟩ := hc (by decide) (by decide)
  exact ⟨hlen, hdel⟩

/-! ## Airtable client (server.cjs 393-601) -/

/-- A JS value as far as the Airtable row handling observes it. -/
inductive JVal where
  | obj (entries : List (String × JVal))
  | arr (items : List JVal)
  | str (s : String)
  | num (q : ℚ)
  | boolean (b : Bool)
  | null
  deriving Repr

/-- Object field maps: association lists keyed by property name. -/
abbrev JMap := List (String × JVal)

/-- First binding for a key, as JS property lookup. -/
def lookupKey (m : JMap) (k : String) : Option JVal :=
  match m with
  | [] => none
  | (k', v) :: rest => if k' == k then some v else lookupKey rest k

/-- JS `delete obj[k]`. -/
def removeKey (m : JMap) (k : String) : JMap :=
  m.filter (fun kv => !(kv.1 == k))

/-- JS truthiness of the values `r.fields || r` can observe. -/
def jsTruthy : JVal → Bool
  | .obj _ => true
  | .arr _ => true
  | .str s => !(s == "")
  | .num q => !(q == 0)
  | .boolean b => b
  | .null => false

/-- `!item || typeof item !== 'object'` is false exactly for non-null
objects and arrays. -/
def jsIsObj : JVal → Bool
  | .obj _ => true
  | .arr _ => true
  | _ => false

/-- Own enumerable properties picked up by an object spread `{...v}`:
objects keep their entries, arrays and strings expose index keys, and
primitives contribute nothing. -/
def spreadToMap : JVal → JMap
  | .obj m => m
  | .arr l => l.enum.map (fun p => (toString p.1, p.2))
  | .str s => s.toList.enum.map (fun p => (toString p.1, JVal.str (String.singleton p.2)))
  | _ => []

/-- `r.fields || r` (server.cjs line 536): the nested `fields` value when
present and truthy, else the row itself. -/
def jsFieldsOrSelf (r : JVal) : JVal :=
  match r with
  | .obj m =>
    match lookupKey m "fields" with
    | some v => if jsTruthy v then v else r
    | none => r
  | _ => r

/-- `AirtableApiClient.sanitiseCreateRow` (server.cjs 498-504): clone and
delete the `id` and `fields` keys. -/
def sanitiseCreateRow (m : JMap) : JMap :=
  removeKey (removeKey m "id") "fields"

/-- The `fields` map of the record submitted for one row:
`{ fields: this.sanitiseCreateRow(r.fields || r) }` (server.cjs line 536). -/
def rowEnvelope (r : JVal) : JMap :=
  sanitiseCreateRow (spreadToMap (jsFieldsOrSelf r))

/-- Error thrown after the loop when some batches failed:
`"${n} batch(es) failed during creation"` (server.cjs 593-597). -/
def batchesFailedErr (n : Nat) : JsError :=
  ⟨none, toString n ++ " batch(es) failed during creation", none⟩

/-- Error aborting the call at the third cumulative batch failure:
`"Multiple batch failures: ${error.message}"` (server.cjs 583-586). -/
def multiFailErr (e : JsError) : JsError :=
  ⟨none, "Multiple batch failures: " ++ e.message, none⟩

/-- Local error for a batch containing null / non-object rows
(server.cjs 530-534). -/
def invalidItemsErr (n : Nat) : JsError :=
  ⟨none, "Batch contains " ++ toString n ++ " invalid items", none⟩

/-- Observable outcome of a `createRecords` call: the JS return/throw, the
network requests issued (each the list of submitted record field-maps, in
order), and how many inter-batch pacing delays were awaited. -/
structure CreateOutcome where
  result : Except JsError (List JMap)
  requests : List (List JMap)
  delays : Nat
  deriving Repr

/-- The batch loop of `AirtableApiClient.createRecords` (server.cjs
523-590).  `submit b` is the network outcome of the request for batch
number `b` (1-based); `acc` accumulates created records and `failed` the
`failedBatches` entries.  `fuel` only bounds the recursion structurally:
each iteration consumes at least one row, so any `fuel ≥ rows.length`
(as supplied by `createRecords`) never reaches the sentinel branch. -/
def createLoop (submit : Nat → Except JsError (List JMap)) (fuel : Nat)
    (rows : List JVal) (batchIdx : Nat) (acc : List JMap)
    (failed : List (Nat × JsError)) : CreateOutcome :=
  match rows with
  | [] =>
    if failed.length > 0 then
      ⟨.error (batchesFailedErr failed.length), [], 0⟩
    else
      ⟨.ok acc, [], 0⟩
  | r0 :: rtail =>
    match fuel with
    | 0 => ⟨.error ⟨none, "fuel exhausted", none⟩, [], 0⟩
    | fuel' + 1 =>
      let batchItems := r0 :: rtail.take 9
      let rest := rtail.drop 9
      let nInvalid := (batchItems.filter (fun r => !(jsIsObj r))).length
      if nInvalid > 0 then
        let failed' := failed ++ [(batchIdx, invalidItemsErr nInvalid)]
        if failed'.length ≥ 3 then
          ⟨.error (multiFailErr (invalidItemsErr nInvalid)), [], 0⟩
        else
          createLoop submit fuel' rest (batchIdx + 1) acc failed'
      else
        let batch := batchItems.map rowEnvelope
        match submit batchIdx with
        | .ok recs =>
          let restOut := createLoop submit fuel' rest (batchIdx + 1) (acc ++ recs) failed
          ⟨restOut.result, batch :: restOut.requests,
            (if rest.isEmpty then 0 else 1) + restOut.delays⟩
        | .error e =>
          let failed' := failed ++ [(batchIdx, e)]
          if failed'.length ≥ 3 then
            ⟨.error (multiFailErr e), [batch], 0⟩
          else
            let restOut := createLoop submit fuel' rest (batchIdx + 1) acc failed'
            ⟨restOut.result, batch :: restOut.requests, restOut.delays⟩

/-- `AirtableApiClient.createRecords(table, rows)` (server.cjs 507-601),
with the network abstracted as `submit`. -/
def createRecords (submit : Nat → Except JsError (List JMap))
    (rows : List JVal) : CreateOutcome :=
  if rows.isEmpty then ⟨.ok [], [], 0⟩
  else createLoop submit rows.length rows 1 [] []

/-- Number of batches for `n` rows at batch size 10: `Math.ceil(n / 10)`. -/
def nChunks (n : Nat) : Nat := (n + 9) / 10

/-- Sizes of the successive batches `rows.slice(i, i + 10)`. -/
def chunkSizes (n : Nat) : List Nat :=
  (List.range (nChunks n)).map (fun i => min 10 (n - 10 * i))

/-- Number of batch numbers `b` in `[lo, lo + k)` for which `failB b`. -/
def countFails (failB : Nat → Bool) : Nat → Nat → Nat
  | _, 0 => 0
  | lo, k + 1 => (if failB lo then 1 else 0) + countFails failB (lo + 1) k

lemma nChunks_pos_eq (n : Nat) (hn : 0 < n) :
    nChunks n = nChunks (n - 10) + 1 := by
  simp only [nChunks]
  omega

lemma chunkSizes_pos (n : Nat) (hn : 0 < n) :
    chunkSizes n = min 10 n :: chunkSizes (n - 10) := by
  rw [chunkSizes, nChunks_pos_eq n hn, List.range_succ_eq_map]
  simp only [List.map_cons, Nat.mul_zero, Nat.sub_zero, List.map_map,
    chunkSizes]
  refine congrArg₂ _ rfl (List.map_congr_left ?_)
  intro i _
  simp only [Function.comp_apply]
  omega

lemma chunkSizes_zero : chunkSizes 0 = [] := by
  simp [chunkSizes, nChunks]

lemma createLoop_nil (submit : Nat → Except JsError (List JMap)) (fuel batchIdx : Nat)
    (acc : List JMap) (failed : List (Nat × JsError)) :
    createLoop submit fuel [] batchIdx acc failed =
      if failed.length > 0 then ⟨.error (batchesFailedErr failed.length), [], 0⟩
      else ⟨.ok acc, [], 0⟩ := by cases fuel <;> rfl

lemma createLoop_cons_ok (submit : Nat → Except JsError (List JMap))
    (fuel batchIdx : Nat) (acc : List JMap) (failed : List (Nat × JsError))
    (r0 : JVal) (rtail : List JVal) (recs : List JMap)
    (hnI : ((r0 :: rtail.take 9).filter (fun r => !(jsIsObj r))).length = 0)
    (hsub : submit batchIdx = .ok recs) :
    createLoop submit (fuel + 1) (r0 :: rtail) batchIdx acc failed =
      ⟨(createLoop submit fuel (rtail.drop 9) (batchIdx + 1) (acc ++ recs) failed).result,
        ((r0 :: rtail.take 9).map rowEnvelope) ::
          (createLoop submit fuel (rtail.drop 9) (batchIdx + 1) (acc ++ recs) failed).requests,
        (if (rtail.drop 9).isEmpty then 0 else 1) +
          (createLoop submit fuel (rtail.drop 9) (batchIdx + 1) (acc ++ recs) failed).delays⟩ := by
  simp only [createLoop, hnI, hsub, gt_iff_lt, Nat.lt_irrefl, if_false]

lemma createLoop_cons_err_cont (submit : Nat → Except JsError (List JMap))
    (fuel batchIdx : Nat) (acc : List JMap) (failed : List (Nat × JsError))
    (r0 : JVal) (rtail : List JVal) (e : JsError)
    (hnI : ((r0 :: rtail.take 9).filter (fun r => !(jsIsObj r))).length = 0)
    (hsub : submit batchIdx = .error e)
    (hfew : failed.length + 1 < 3) :
    createLoop submit (fuel + 1) (r0 :: rtail) batchIdx acc failed =
      ⟨(createLoop submit fuel (rtail.drop 9) (batchIdx + 1) acc (failed ++ [(batchIdx, e)])).result,
        ((r0 :: rtail.take 9).map rowEnvelope) ::
          (createLoop submit fuel (rtail.drop 9) (batchIdx + 1) acc (failed ++ [(batchIdx, e)])).requests,
        (createLoop submit fuel (rtail.drop 9) (batchIdx + 1) acc (failed ++ [(batchIdx, e)])).delays⟩ := by
  simp only [createLoop, hnI, hsub, gt_iff_lt, Nat.lt_irrefl, if_false]
  rw [if_neg (by simp only [List.length_append, List.length_cons, List.length_nil]; omega)]

lemma createLoop_cons_err_abort (submit : Nat → Except JsError (List JMap))
    (fuel batchIdx : Nat) (acc : List JMap) (failed : List (Nat × JsError))
    (r0 : JVal) (rtail : List JVal) (e : JsError)
    (hnI : ((r0 :: rtail.take 9).filter (fun r => !(jsIsObj r))).length = 0)
    (hsub : submit batchIdx = .error e)
    (hthird : failed.length + 1 ≥ 3) :
    createLoop submit (fuel + 1) (r0 :: rtail) batchIdx acc failed =
      ⟨.error (multiFailErr e), [(r0 :: rtail.take 9).map rowEnvelope], 0⟩ := by
  simp only [createLoop, hnI, hsub, gt_iff_lt, Nat.lt_irrefl, if_false]
  rw [if_pos (by simp only [List.length_append, List.length_cons, List.length_nil]; omega)]

lemma filter_nonObj_nil (r0 : JVal) (rtail : List JVal)
    (hobj : ∀ r ∈ r0 :: rtail, jsIsObj r = true) :
    ((r0 :: rtail.take 9).filter (fun r => !(jsIsObj r))).length = 0 := by
  rw [List.length_eq_zero]
  rw [List.filter_eq_nil_iff]
  intro a ha
  have ham : a ∈ r0 :: rtail := by
    rcases List.mem_cons.mp ha with h | h
    · exact h ▸ List.mem_cons_self _ _
    · exact List.mem_cons_of_mem _ (List.take_subset 9 rtail h)
  simp [hobj a ham]

lemma createLoop_all_ok (submit : Nat → Except JsError (List JMap))
    (hsub : ∀ b, ∃ recs, submit b = .ok recs) :
    ∀ fuel rows batchIdx acc,
      rows.length ≤ fuel → (∀ r ∈ rows, jsIsObj r = true) →
      (createLoop submit fuel rows batchIdx acc []).requests.map List.length
          = chunkSizes rows.length ∧
      (createLoop submit fuel rows batchIdx acc []).delays
          = nChunks rows.length - 1 ∧
      ∃ l, (createLoop submit fuel rows batchIdx acc []).result = .ok l := by
  intro fuel
  induction fuel with
  | zero =>
    intro rows batchIdx acc hlen hobj
    have hrows : rows = [] := List.length_eq_zero.mp (Nat.le_zero.mp hlen)
    subst hrows
    simp [createLoop_nil, chunkSizes_zero, nChunks]
  | succ fuel ih =>
    intro rows batchIdx acc hlen hobj
    match rows with
    | [] => simp [createLoop_nil, chunkSizes_zero, nChunks]
    | r0 :: rtail =>
      obtain ⟨recs, hrecs⟩ := hsub batchIdx
      have hnI := filter_nonObj_nil r0 rtail hobj
      rw [createLoop_cons_ok submit fuel batchIdx acc [] r0 rtail recs hnI hrecs]
      have hlen' : (rtail.drop 9).length ≤ fuel := by
        simp only [List.length_drop]
        simp only [List.length_cons] at hlen
        omega
      have hobj' : ∀ r ∈ rtail.drop 9, jsIsObj r = true := fun r hr =>
        hobj r (List.mem_cons_of_mem _ (List.drop_subset 9 rtail hr))
      obtain ⟨ihreq, ihdel, l, ihres⟩ := ih (rtail.drop 9) (batchIdx + 1) (acc ++ recs) hlen' hobj'
      refine ⟨?_, ?_, l, ihres⟩
      · simp only [List.map_cons, ihreq, List.length_map, List.length_cons,
          List.length_take, List.length_drop]
        rw [chunkSizes_pos (rtail.length + 1) (by omega)]
        congr 1
        omega
      · rw [ihdel]
        have hiff : (rtail.drop 9).isEmpty = true ↔ rtail.length ≤ 9 := by
          rw [List.isEmpty_iff_length_eq_zero, List.length_drop]
          omega
        by_cases hre : (rtail.drop 9).isEmpty = true
        · have h9 := hiff.mp hre
          rw [if_pos hre]
          simp only [nChunks, List.length_drop, List.length_cons]
          omega
        · have h9 : ¬ rtail.length ≤ 9 := fun h => hre (hiff.mpr h)
          rw [if_neg hre]
          simp only [nChunks, List.length_drop, List.length_cons]
          omega

lemma countFails_succ (failB : Nat → Bool) (lo k : Nat) :
    countFails failB lo (k + 1)
      = (if failB lo then 1 else 0) + countFails failB (lo + 1) k := rfl

lemma countFails_pos (failB : Nat → Bool) :
    ∀ k lo j, j < k → failB (lo + j) = true → 1 ≤ countFails failB lo k := by
  intro k
  induction k with
  | zero => intro lo j hj; omega
  | succ k ih =>
    intro lo j hj hf
    rw [countFails_succ]
    match j with
    | 0 =>
      simp only [Nat.add_zero] at hf
      simp [hf]
    | j' + 1 =>
      have : 1 ≤ countFails failB (lo + 1) k := by
        refine ih (lo + 1) j' (by omega) ?_
        have : lo + 1 + j' = lo + (j' + 1) := by omega
        rw [this]
        exact hf
      omega

lemma nChunks_rest (rtail : List JVal) :
    nChunks (rtail.drop 9).length = nChunks (rtail.length + 1) - 1 := by
  simp only [List.length_drop, nChunks]
  omega

lemma createLoop_few_failures (submit : Nat → Except JsError (List JMap))
    (failB : Nat → Bool) (errF : Nat → JsError) (recsF : Nat → List JMap)
    (hsub : ∀ b, submit b = if failB b then .error (errF b) else .ok (recsF b)) :
    ∀ fuel rows batchIdx acc failed,
      rows.length ≤ fuel → (∀ r ∈ rows, jsIsObj r = true) →
      failed.length + countFails failB batchIdx (nChunks rows.length) ≤ 2 →
      (createLoop submit fuel rows batchIdx acc failed).requests.map List.length
          = chunkSizes rows.length ∧
      (failed.length + countFails failB batchIdx (nChunks rows.length) = 0 →
        ∃ l, (createLoop submit fuel rows batchIdx acc failed).result = .ok l) ∧
      (0 < failed.length + countFails failB batchIdx (nChunks rows.length) →
        (createLoop submit fuel rows batchIdx acc failed).result
          = .error (batchesFailedErr
              (failed.length + countFails failB batchIdx (nChunks rows.length)))) := by
  intro fuel
  induction fuel with
  | zero =>
    intro rows batchIdx acc failed hlen hobj hfew
    have hrows : rows = [] := List.length_eq_zero.mp (Nat.le_zero.mp hlen)
    subst hrows
    have hcf0 : countFails failB batchIdx (nChunks ([] : List JVal).length) = 0 := rfl
    simp only [hcf0, Nat.add_zero] at hfew ⊢
    simp only [List.length_nil, chunkSizes_zero, createLoop_nil]
    constructor
    · split
      · simp
      · simp
    constructor
    · intro h0
      rw [if_neg (by omega)]
      exact ⟨acc, rfl⟩
    · intro hpos
      rw [if_pos (by omega)]
  | succ fuel ih =>
    intro rows batchIdx acc failed hlen hobj hfew
    match rows with
    | [] =>
      have hcf0 : countFails failB batchIdx (nChunks ([] : List JVal).length) = 0 := rfl
      simp only [hcf0, Nat.add_zero] at hfew ⊢
      simp only [List.length_nil, chunkSizes_zero, createLoop_nil]
      constructor
      · split
        · simp
        · simp
      constructor
      · intro h0
        rw [if_neg (by omega)]
        exact ⟨acc, rfl⟩
      · intro hpos
        rw [if_pos (by omega)]
    | r0 :: rtail =>
      have hnI := filter_nonObj_nil r0 rtail hobj
      have hlen' : (rtail.drop 9).length ≤ fuel := by
        simp only [List.length_drop]
        simp only [List.length_cons] at hlen
        omega
      have hobj' : ∀ r ∈ rtail.drop 9, jsIsObj r = true := fun r hr =>
        hobj r (List.mem_cons_of_mem _ (List.drop_subset 9 rtail hr))
      have hchunk : nChunks (r0 :: rtail).length
          = nChunks ((rtail.drop 9).length) + 1 := by
        simp only [List.length_cons, nChunks_rest]
        rw [nChunks_pos_eq (rtail.length + 1) (by omega)]
        omega
      have hcf : countFails failB batchIdx (nChunks (r0 :: rtail).length)
          = (if failB batchIdx then 1 else 0)
            + countFails failB (batchIdx + 1) (nChunks ((rtail.drop 9).length)) := by
        rw [hchunk, countFails_succ]
      by_cases hfb : failB batchIdx = true
      · -- this batch fails; below the abort threshold, so the loop continues
        have hcfT : countFails failB batchIdx (nChunks (r0 :: rtail).length)
            = 1 + countFails failB (batchIdx + 1) (nChunks ((rtail.drop 9).length)) := by
          rw [hcf, hfb]
          simp
        have hsubE : submit batchIdx = .error (errF batchIdx) := by
          rw [hsub batchIdx, if_pos hfb]
        have hfew1 : failed.length + 1 < 3 := by
          rw [hcfT] at hfew
          omega
        rw [createLoop_cons_err_cont submit fuel batchIdx acc failed r0 rtail
          (errF batchIdx) hnI hsubE hfew1]
        have hinv : (failed ++ [(batchIdx, errF batchIdx)]).length
            + countFails failB (batchIdx + 1) (nChunks ((rtail.drop 9).length))
            = failed.length + countFails failB batchIdx (nChunks (r0 :: rtail).length) := by
          rw [hcfT]
          simp only [List.length_append, List.length_cons, List.length_nil]
          omega
        obtain ⟨ihreq, ihok, iherr⟩ := ih (rtail.drop 9) (batchIdx + 1)
          acc (failed ++ [(batchIdx, errF batchIdx)]) hlen' hobj'
          (by rw [hinv]; exact hfew)
        refine ⟨?_, ?_, ?_⟩
        · simp only [List.map_cons, ihreq, List.length_map, List.length_cons,
            List.length_take, List.length_drop]
          rw [chunkSizes_pos (rtail.length + 1) (by omega)]
          congr 1
          omega
        · intro h0
          exfalso
          rw [hcfT] at h0
          omega
        · intro hpos
          rw [← hinv] at hfew ⊢
          exact iherr (by omega)
      · have hfb' : failB batchIdx = false := by
          simpa using hfb
        have hcfF : countFails failB batchIdx (nChunks (r0 :: rtail).length)
            = countFails failB (batchIdx + 1) (nChunks ((rtail.drop 9).length)) := by
          rw [hcf, hfb']
          simp
        have hsubO : submit batchIdx = .ok (recsF batchIdx) := by
          rw [hsub batchIdx, hfb']
          simp
        rw [createLoop_cons_ok submit fuel batchIdx acc failed r0 rtail
          (recsF batchIdx) hnI hsubO]
        have hinv : failed.length
            + countFails failB (batchIdx + 1) (nChunks ((rtail.drop 9).length))
            = failed.length + countFails failB batchIdx (nChunks (r0 :: rtail).length) := by
          rw [hcfF]
        obtain ⟨ihreq, ihok, iherr⟩ := ih (rtail.drop 9) (batchIdx + 1)
          (acc ++ recsF batchIdx) failed hlen' hobj'
          (by rw [hinv]; exact hfew)
        refine ⟨?_, ?_, ?_⟩
        · simp only [List.map_cons, ihreq, List.length_map, List.length_cons,
            List.length_take, List.length_drop]
          rw [chunkSizes_pos (rtail.length + 1) (by omega)]
          congr 1
          omega
        · intro h0
          exact ihok (by rw [hinv]; exact h0)
        · intro hpos
          rw [← hinv] at hfew ⊢
          exact iherr (by omega)

lemma nChunks_cons (r0 : JVal) (rtail : List JVal) :
    nChunks (r0 :: rtail).length = nChunks ((rtail.drop 9).length) + 1 := by
  simp only [List.length_cons, nChunks_rest]
  rw [nChunks_pos_eq (rtail.length + 1) (by omega)]
  omega

lemma createLoop_abort (submit : Nat → Except JsError (List JMap))
    (failB : Nat → Bool) (errF : Nat → JsError) (recsF : Nat → List JMap)
    (hsub : ∀ b, submit b = if failB b then .error (errF b) else .ok (recsF b)) :
    ∀ fuel rows batchIdx acc failed k,
      rows.length ≤ fuel → (∀ r ∈ rows, jsIsObj r = true) →
      k < nChunks rows.length →
      failB (batchIdx + k) = true →
      failed.length + countFails failB batchIdx (k + 1) = 3 →
      (createLoop submit fuel rows batchIdx acc failed).requests.length = k + 1 ∧
      (createLoop submit fuel rows batchIdx acc failed).result
        = .error (multiFailErr (errF (batchIdx + k))) := by
  intro fuel
  induction fuel with
  | zero =>
    intro rows batchIdx acc failed k hlen hobj hk hfk h3
    exfalso
    have hrows : rows = [] := List.length_eq_zero.mp (Nat.le_zero.mp hlen)
    subst hrows
    simp only [List.length_nil] at hk
    have : nChunks 0 = 0 := rfl
    omega
  | succ fuel ih =>
    intro rows batchIdx acc failed k hlen hobj hk hfk h3
    match rows with
    | [] =>
      exfalso
      simp only [List.length_nil] at hk
      have : nChunks 0 = 0 := rfl
      omega
    | r0 :: rtail =>
      have hnI := filter_nonObj_nil r0 rtail hobj
      have hlen' : (rtail.drop 9).length ≤ fuel := by
        simp only [List.length_drop]
        simp only [List.length_cons] at hlen
        omega
      have hobj' : ∀ r ∈ rtail.drop 9, jsIsObj r = true := fun r hr =>
        hobj r (List.mem_cons_of_mem _ (List.drop_subset 9 rtail hr))
      match k with
      | 0 =>
        have hfb : failB batchIdx = true := by simpa using hfk
        have hcf1 : countFails failB batchIdx 1 = 1 := by
          simp [countFails, hfb]
        have hflen : failed.length + 1 ≥ 3 := by
          rw [hcf1] at h3
          omega
        have hsubE : submit batchIdx = .error (errF batchIdx) := by
          rw [hsub batchIdx, if_pos hfb]
        rw [createLoop_cons_err_abort submit fuel batchIdx acc failed r0 rtail
          (errF batchIdx) hnI hsubE hflen]
        refine ⟨by simp, by simp⟩
      | k'' + 1 =>
        have hk'' : k'' < nChunks ((rtail.drop 9).length) := by
          rw [nChunks_cons] at hk
          omega
        have hfk' : failB (batchIdx + 1 + k'') = true := by
          have : batchIdx + 1 + k'' = batchIdx + (k'' + 1) := by omega
          rw [this]
          exact hfk
        have hsplit : countFails failB batchIdx (k'' + 2)
            = (if failB batchIdx then 1 else 0)
              + countFails failB (batchIdx + 1) (k'' + 1) := countFails_succ _ _ _
        by_cases hfb : failB batchIdx = true
        · have hpos1 : 1 ≤ countFails failB (batchIdx + 1) (k'' + 1) :=
            countFails_pos failB (k'' + 1) (batchIdx + 1) k'' (by omega) hfk'
          have hfew1 : failed.length + 1 < 3 := by
            rw [hsplit, hfb] at h3
            simp only [if_pos] at h3
            omega
          have hsubE : submit batchIdx = .error (errF batchIdx) := by
            rw [hsub batchIdx, if_pos hfb]
          rw [createLoop_cons_err_cont submit fuel batchIdx acc failed r0 rtail
            (errF batchIdx) hnI hsubE hfew1]
          have h3' : (failed ++ [(batchIdx, errF batchIdx)]).length
              + countFails failB (batchIdx + 1) (k'' + 1) = 3 := by
            simp only [List.length_append, List.length_cons, List.length_nil]
            rw [hsplit, hfb] at h3
            simp only [if_pos] at h3
            omega
          obtain ⟨ihreq, ihres⟩ := ih (rtail.drop 9) (batchIdx + 1) acc
            (failed ++ [(batchIdx, errF batchIdx)]) k'' hlen' hobj' hk'' hfk' h3'
          refine ⟨?_, ?_⟩
          · simp only [List.length_cons, ihreq]
          · rw [ihres]
            have : batchIdx + 1 + k'' = batchIdx + (k'' + 1) := by omega
            rw [this]
        · have hfb' : failB batchIdx = false := by simpa using hfb
          have hsubO : submit batchIdx = .ok (recsF batchIdx) := by
            rw [hsub batchIdx, hfb']
            simp
          rw [createLoop_cons_ok submit fuel batchIdx acc failed r0 rtail
            (recsF batchIdx) hnI hsubO]
          have h3' : failed.length + countFails failB (batchIdx + 1) (k'' + 1) = 3 := by
            rw [hsplit, hfb'] at h3
            simp at h3
            omega
          obtain ⟨ihreq, ihres⟩ := ih (rtail.drop 9) (batchIdx + 1)
            (acc ++ recsF batchIdx) failed k'' hlen' hobj' hk'' hfk' h3'
          refine ⟨?_, ?_⟩
          · simp only [List.length_cons, ihreq]
          · rw [ihres]
            have : batchIdx + 1 + k'' = batchIdx + (k'' + 1) := by omega
            rw [this]

lemma chunkSizes_length (n : Nat) : (chunkSizes n).length = nChunks n := by
  simp [chunkSizes]

lemma nChunks_pos_len (n : Nat) (h : 0 < nChunks n) : 0 < n := by
  simp only [nChunks] at h
  omega

/-- C4: `createRecords` with 25 rows issues exactly 3 requests of sizes
10, 10 and 5 and awaits the pacing delay exactly twice (between requests
1-2 and 2-3, not after the last); in general n > 0 rows yield ceil(n/10)
requests and ceil(n/10) - 1 pacing delays. -/
theorem c4_batching_and_pacing (submit : Nat → Except JsError (List JMap))
    (rows : List JVal) (hobj : ∀ r ∈ rows, jsIsObj r = true)
    (hsub : ∀ b, ∃ recs, submit b = .ok recs) (hne : rows ≠ []) :
    (createRecords submit rows).requests.map List.length
        = chunkSizes rows.length ∧
    (createRecords submit rows).requests.length = nChunks rows.length ∧
    (createRecords submit rows).delays = nChunks rows.length - 1 ∧
    (rows.length = 25 →
      (createRecords submit rows).requests.map List.length = [10, 10, 5] ∧
      (createRecords submit rows).delays = 2) := by
  have hie : rows.isEmpty = false := by
    cases rows
    · exact absurd rfl hne
    · rfl
  obtain ⟨hreq, hdel, -⟩ :=
    createLoop_all_ok submit hsub rows.length rows 1 [] le_rfl hobj
  have hcr : createRecords submit rows
      = createLoop submit rows.length rows 1 [] [] := by
    rw [createRecords, hie]
    simp
  rw [hcr]
  refine ⟨hreq, ?_, hdel, ?_⟩
  · have := congrArg List.length hreq
    simpa [chunkSizes_length] using this
  · intro h25
    rw [h25] at hreq hdel ⊢
    constructor
    · rw [hreq]
      rfl
    · rw [hdel]
      rfl

/-- C4 witness: 25 concrete object rows with an always-succeeding sink give
requests of sizes 10, 10, 5 and exactly 2 pacing delays. -/
theorem c4_batching_and_pacing_witness :
    (createRecords (fun _ => .ok [])
        (List.replicate 25 (JVal.obj [("A", JVal.str "x")]))).requests.map
          List.length = [10, 10, 5] ∧
    (createRecords (fun _ => .ok [])
        (List.replicate 25 (JVal.obj [("A", JVal.str "x")]))).delays = 2 := by
  have h := c4_batching_and_pacing (fun _ => .ok [])
    (List.replicate 25 (JVal.obj [("A", JVal.str "x")]))
    (by
      intro r hr
      rw [List.eq_of_mem_replicate hr]
      rfl)
    (fun b => ⟨[], rfl⟩)
    (by simp)
  exact h.2.2.2 (by rfl)

/-- C5: a failed batch is recorded and the loop continues; at the third
cumulative batch failure the call aborts immediately with a multi-failure
error, without submitting the remaining batches; with 1 or 2 failed batches
every batch is still attempted and the call then raises an error reporting
the number of failed batches. -/
theorem c5_batch_failure_policy (submit : Nat → Except JsError (List JMap))
    (failB : Nat → Bool) (errF : Nat → JsError) (recsF : Nat → List JMap)
    (hsub : ∀ b, submit b = if failB b then .error (errF b) else .ok (recsF b))
    (rows : List JVal) (hobj : ∀ r ∈ rows, jsIsObj r = true) :
    (∀ k, k < nChunks rows.length → failB (1 + k) = true →
      countFails failB 1 (k + 1) = 3 →
      (createRecords submit rows).requests.length = k + 1 ∧
      (createRecords submit rows).result
        = .error (multiFailErr (errF (1 + k)))) ∧
    (∀ f, f = countFails failB 1 (nChunks rows.length) → 1 ≤ f → f ≤ 2 →
      (createRecords submit rows).requests.map List.length
          = chunkSizes rows.length ∧
      (createRecords submit rows).result = .error (batchesFailedErr f)) := by
  constructor
  · intro k hk hfk h3
    have hlen : 0 < rows.length := nChunks_pos_len _ (by omega)
    have hie : rows.isEmpty = false := by
      cases rows
      · simp at hlen
      · rfl
    have hcr : createRecords submit rows
        = createLoop submit rows.length rows 1 [] [] := by
      rw [createRecords, hie]
      simp
    rw [hcr]
    exact createLoop_abort submit failB errF recsF hsub rows.length rows 1 []
      [] k le_rfl hobj hk hfk (by simpa using h3)
  · intro f hf h1 h2
    have hnc : 0 < nChunks rows.length := by
      by_contra hc
      have : nChunks rows.length = 0 := by omega
      rw [this] at hf
      simp [countFails] at hf
      omega
    have hlen : 0 < rows.length := nChunks_pos_len _ hnc
    have hie : rows.isEmpty = false := by
      cases rows
      · simp at hlen
      · rfl
    have hcr : createRecords submit rows
        = createLoop submit rows.length rows 1 [] [] := by
      rw [createRecords, hie]
      simp
    rw [hcr]
    obtain ⟨hreq, -, herr⟩ := createLoop_few_failures submit failB errF recsF
      hsub rows.length rows 1 [] [] le_rfl hobj (by simp; omega)
    refine ⟨hreq, ?_⟩
    have := herr (by simp; omega)
    simpa [← hf] using this

/-- C5 witness: with 35 object rows, a sink failing on every batch aborts at
the third failure after 3 requests; a sink failing only on batch 2 attempts
all 4 batches and raises an error reporting 1 failed batch. -/
theorem c5_batch_failure_policy_witness :
    (createRecords (fun _ => .error ⟨some 422, "bad", none⟩)
        (List.replicate 35 (JVal.obj [("A", JVal.str "x")]))).requests.length
        = 3 ∧
    (createRecords (fun _ => .error ⟨some 422, "bad", none⟩)
        (List.replicate 35 (JVal.obj [("A", JVal.str "x")]))).result
        = .error ⟨none, "Multiple batch failures: bad", none⟩ ∧
    (createRecords (fun b => if b == 2 then .error ⟨some 422, "bad", none⟩
          else .ok [])
        (List.replicate 35 (JVal.obj [("A", JVal.str "x")]))).requests.map
          List.length = [10, 10, 10, 5] ∧
    (createRecords (fun b => if b == 2 then .error ⟨some 422, "bad", none⟩
          else .ok [])
        (List.replicate 35 (JVal.obj [("A", JVal.str "x")]))).result
        = .error ⟨none, "1 batch(es) failed during creation", none⟩ := by
  have hobj : ∀ r ∈ List.replicate 35 (JVal.obj [("A", JVal.str "x")]),
      jsIsObj r = true := by
    intro r hr
    rw [List.eq_of_mem_replicate hr]
    rfl
  have hall := c5_batch_failure_policy
    (fun _ => .error ⟨some 422, "bad", none⟩) (fun _ => true)
    (fun _ => ⟨some 422, "bad", none⟩) (fun _ => [])
    (fun b => rfl) (List.replicate 35 (JVal.obj [("A", JVal.str "x")])) hobj
  have hone := c5_batch_failure_policy
    (fun b => if b == 2 then .error ⟨some 422, "bad", none⟩ else .ok [])
    (fun b => b == 2) (fun _ => ⟨some 422, "bad", none⟩) (fun _ => [])
    (fun b => rfl) (List.replicate 35 (JVal.obj [("A", JVal.str "x")])) hobj
  obtain ⟨habort, hreqs⟩ := hall.1 2 (by decide) (by decide) (by decide)
  obtain ⟨hreq1, hres1⟩ := hone.2 1 (by decide) (by decide) (by decide)
  refine ⟨habort, hreqs, ?_, hres1⟩
  rw [hreq1]
  rfl

lemma lookupKey_removeKey_self (m : JMap) (k : String) :
    lookupKey (removeKey m k) k = none := by
  induction m with
  | nil => rfl
  | cons kv rest ih =>
    by_cases hk : kv.1 == k
    · simpa [removeKey, hk] using ih
    · simp only [removeKey, List.filter_cons, hk, Bool.not_false, if_true]
      simp only [lookupKey, hk]
      simpa [removeKey] using ih

lemma lookupKey_removeKey_ne (m : JMap) (k k' : String) (h : (k' == k) = false) :
    lookupKey (removeKey m k') k = lookupKey m k := by
  induction m with
  | nil => rfl
  | cons kv rest ih =>
    by_cases hk : kv.1 == k'
    · have hkk : (kv.1 == k) = false := by
        have h1 : kv.1 = k' := by simpa using hk
        rw [h1]
        exact h
      simp only [removeKey, List.filter_cons, hk, Bool.not_true, if_false]
      simp only [lookupKey, hkk, if_false]
      simpa [removeKey] using ih
    · have hk' : (kv.1 == k') = false := by simpa using hk
      simp only [removeKey, List.filter_cons, hk', Bool.not_false, if_true]
      simp only [lookupKey]
      by_cases hke : kv.1 == k
      · simp [hke]
      · have : (kv.1 == k) = false := by simpa using hke
        simp only [this, if_false]
        simpa [removeKey] using ih

lemma rowEnvelope_no_reserved (r : JVal) :
    lookupKey (rowEnvelope r) "id" = none ∧
    lookupKey (rowEnvelope r) "fields" = none := by
  constructor
  · rw [rowEnvelope, sanitiseCreateRow,
      lookupKey_removeKey_ne _ "id" "fields" (by decide)]
    exact lookupKey_removeKey_self _ _
  · exact lookupKey_removeKey_self _ _

lemma createLoop_req_shape (submit : Nat → Except JsError (List JMap)) :
    ∀ fuel rows batchIdx acc failed req,
      req ∈ (createLoop submit fuel rows batchIdx acc failed).requests →
      ∃ items : List JVal, req = items.map rowEnvelope := by
  intro fuel
  induction fuel with
  | zero =>
    intro rows batchIdx acc failed req hreq
    match rows with
    | [] =>
      rw [createLoop_nil] at hreq
      split at hreq <;> simp at hreq
    | r0 :: rtail =>
      simp only [createLoop] at hreq
      simp at hreq
  | succ fuel ih =>
    intro rows batchIdx acc failed req hreq
    match rows with
    | [] =>
      rw [createLoop_nil] at hreq
      split at hreq <;> simp at hreq
    | r0 :: rtail =>
      simp only [createLoop] at hreq
      split at hreq
      · -- some rows in the batch are invalid
        split at hreq
        · simp at hreq
        · exact ih _ _ _ _ _ hreq
      · -- valid batch: case on the network outcome
        split at hreq
        · -- submit ok
          simp only [List.mem_cons] at hreq
          rcases hreq with h | h
          · exact ⟨r0 :: rtail.take 9, h⟩
          · exact ih _ _ _ _ _ h
        · -- submit error
          split at hreq
          · simp only [List.mem_singleton] at hreq
            exact ⟨r0 :: rtail.take 9, hreq⟩
          · simp only [List.mem_cons] at hreq
            rcases hreq with h | h
            · exact ⟨r0 :: rtail.take 9, h⟩
            · exact ih _ _ _ _ _ h

/-- C6: every record submitted by `createRecords` wraps the row's columns in
a fields envelope from which both the `id` and `fields` keys have been
stripped, whatever the caller supplied. -/
theorem c6_reserved_keys_stripped :
    (∀ r : JVal, lookupKey (rowEnvelope r) "id" = none ∧
      lookupKey (rowEnvelope r) "fields" = none) ∧
    ∀ (submit : Nat → Except JsError (List JMap)) (rows : List JVal)
      (req : List JMap) (m : JMap),
      req ∈ (createRecords submit rows).requests → m ∈ req →
      lookupKey m "id" = none ∧ lookupKey m "fields" = none := by
  refine ⟨rowEnvelope_no_reserved, ?_⟩
  intro submit rows req m hreq hm
  have hshape : ∃ items : List JVal, req = items.map rowEnvelope := by
    rw [createRecords] at hreq
    split at hreq
    · simp at hreq
    · exact createLoop_req_shape submit _ _ _ _ _ _ hreq
  obtain ⟨items, rfl⟩ := hshape
  obtain ⟨r, -, rfl⟩ := List.mem_map.mp hm
  exact rowEnvelope_no_reserved r

/-- C6 witness: a row carrying both a top-level `id` and a nested `fields`
object (itself containing `id`) is submitted with neither reserved key. -/
theorem c6_reserved_keys_stripped_witness :
    lookupKey
        (rowEnvelope (JVal.obj [("id", JVal.str "x"),
          ("fields", JVal.obj [("B", JVal.num 1), ("id", JVal.str "y")]),
          ("C", JVal.num 2)])) "id" = none ∧
    lookupKey
        (rowEnvelope (JVal.obj [("id", JVal.str "x"),
          ("fields", JVal.obj [("B", JVal.num 1), ("id", JVal.str "y")]),
          ("C", JVal.num 2)])) "fields" = none := by
  exact c6_reserved_keys_stripped.2 (fun _ => .ok [])
    [JVal.obj [("id", JVal.str "x"),
      ("fields", JVal.obj [("B", JVal.num 1), ("id", JVal.str "y")]),
      ("C", JVal.num 2)]]
    [rowEnvelope (JVal.obj [("id", JVal.str "x"),
      ("fields", JVal.obj [("B", JVal.num 1), ("id", JVal.str "y")]),
      ("C", JVal.num 2)])]
    (rowEnvelope (JVal.obj [("id", JVal.str "x"),
      ("fields", JVal.obj [("B", JVal.num 1), ("id", JVal.str "y")]),
      ("C", JVal.num 2)]))
    (List.mem_singleton.mpr rfl) (List.mem_singleton.mpr rfl)

/-! ## Klaviyo client: flow actions and flow messages (server.cjs 223-348) -/

/-- `/^[a-zA-Z0-9]+$/.test(id)` combined with the preceding `!id` check:
a non-empty, all-alphanumeric string. -/
def isAlnumChar (c : Char) : Bool :=
  (('a' ≤ c && c ≤ 'z') || ('A' ≤ c && c ≤ 'Z') || ('0' ≤ c && c ≤ '9'))

/-- Validity of a flow / flow-action id. -/
def isValidId (s : String) : Bool :=
  !(s == "") && s.toList.all isAlnumChar

/-- A JSON:API item as observed by the clients (`data` entries and
`included` entries): its `id` / `type` / attribute fields may be absent. -/
structure KItem where
  id : Option String
  type : Option String
  name : Option String
  actionType : Option String
  created : Option String
  updated : Option String
  deriving Repr, DecidableEq

/-- Response observed by `getFlowActions`: `data` is `none` when the
response or its `data` property is missing/falsy. -/
structure ActionsResponse where
  data : Option (List KItem)
  deriving Repr

/-- Response observed by `getFlowMessages`: `included` is `none` when the
response has no `included` array (missing or not an array); list items may
themselves be null. -/
structure MessagesResponse where
  included : Option (List (Option KItem))
  deriving Repr

/-- A failure accumulated in the client's `failedFlows` list.  The first
two push sites (invalid id, missing included array) set no status or
timestamp; the catch-block push records both. -/
structure FailedFlowRecord where
  flowActionId : String
  reason : String
  statusRepr : Option String
  timestamp : Option String
  deriving Repr, DecidableEq

/-- The default-filling transform applied to fetched actions when the first
item is not already of type `flow-action` (server.cjs 250-262). -/
def transformAction (now : String) (a : KItem) : KItem :=
  { id := some (a.id.getD "")
    type := some (a.type.getD "flow-action")
    name := some (a.name.getD "Unnamed Action")
    actionType := some (a.actionType.getD "unknown")
    created := some (a.created.getD now)
    updated := some (a.updated.getD now) }

/-- `KlaviyoApiClient.getFlowActions` (server.cjs 223-275): returns the
action list, the unchanged failure accumulator (this method never pushes to
it), and the number of network requests issued. -/
def getFlowActions (flowId : String)
    (fetchResult : Except JsError ActionsResponse) (now : String)
    (failed : List FailedFlowRecord) :
    List KItem × List FailedFlowRecord × Nat :=
  if !(isValidId flowId) then
    ([], failed, 0)
  else
    match fetchResult with
    | .error _ => ([], failed, 1)
    | .ok resp =>
      match resp.data with
      | none => ([], failed, 1)
      | some acts =>
        match acts with
        | [] => ([], failed, 1)
        | a :: _ =>
          if a.type == some "flow-action" then (acts, failed, 1)
          else (acts.map (transformAction now), failed, 1)

/-- `error.status || 'unknown'` as rendered into the failure record. -/
def statusRepr (e : JsError) : String :=
  match e.status with
  | some st => if st == 0 then "unknown" else toString st
  | none => "unknown"

/-- First line of the message, truncated to 100 characters
(`error.message.split('\n')[0].substring(0, 100)`). -/
def firstLine100 (m : String) : String :=
  ((m.splitOn "\x0a").headD m).take 100

/-- The reason attached in `getFlowMessages`'s catch block
(server.cjs 319-332). -/
def msgFailureReason (e : JsError) : String :=
  if e.status == some 404 then "Action not found (404)"
  else if e.status == some 401 || e.status == some 403 then
    "Authentication or permission error"
  else if e.status == some 429 then "Rate limit exceeded"
  else if !(e.message == "") then firstLine100 e.message
  else "Unknown error"

/-- `KlaviyoApiClient.getFlowMessages` (server.cjs 277-348): returns the
extracted flow-message items, the updated failure accumulator, and the
number of network requests issued.  It never raises: every failure path
degrades to an empty data list. -/
def getFlowMessages (flowActionId : String)
    (fetchResult : Except JsError MessagesResponse) (now : String)
    (failed : List FailedFlowRecord) :
    List KItem × List FailedFlowRecord × Nat :=
  if !(isValidId flowActionId) then
    ([], failed ++ [⟨flowActionId, "Invalid action ID format", none, none⟩], 0)
  else
    match fetchResult with
    | .ok resp =>
      match resp.included with
      | some items =>
        let flowMessages := (items.filterMap id).filter
          (fun item => item.type == some "flow-message")
        (flowMessages.map (fun message =>
          { id := message.id, type := message.type, name := message.name,
            actionType := message.actionType, created := message.created,
            updated := message.updated }), failed, 1)
      | none =>
        ([], failed ++ [⟨flowActionId, "No flow messages found in response",
          none, none⟩], 1)
    | .error e =>
      ([], failed ++ [⟨flowActionId, msgFailureReason e,
        some (statusRepr e), some now⟩], 1)

/-- C8: an id that is not non-empty alphanumeric makes `getFlowActions` and
`getFlowMessages` return an empty data list with no network request issued;
`getFlowMessages` additionally records one failure, `getFlowActions`
records none. -/
theorem c8_invalid_id_short_circuit (id : String) (hid : isValidId id = false)
    (fa : Except JsError ActionsResponse) (fm : Except JsError MessagesResponse)
    (now : String) (failed : List FailedFlowRecord) :
    getFlowActions id fa now failed = ([], failed, 0) ∧
    getFlowMessages id fm now failed =
      ([], failed ++ [⟨id, "Invalid action ID format", none, none⟩], 0) := by
  constructor
  · simp [getFlowActions, hid]
  · simp [getFlowMessages, hid]

/-- C8 witness: the id "bad-id!" (non-alphanumeric) short-circuits both
operations with zero requests. -/
theorem c8_invalid_id_short_circuit_witness :
    getFlowActions "bad-id!" (.ok ⟨none⟩) "t0" [] = ([], [], 0) ∧
    getFlowMessages "bad-id!" (.ok ⟨none⟩) "t0" [] =
      ([], [⟨"bad-id!", "Invalid action ID format", none, none⟩], 0) := by
  have h := c8_invalid_id_short_circuit "bad-id!" (by decide)
    (.ok ⟨none⟩) (.ok ⟨none⟩) "t0" []
  refine ⟨h.1, ?_⟩
  rw [h.2]
  rfl

lemma msgFailureReason_cases (e : JsError) :
    msgFailureReason e = "Action not found (404)" ∨
    msgFailureReason e = "Authentication or permission error" ∨
    msgFailureReason e = "Rate limit exceeded" ∨
    msgFailureReason e = firstLine100 e.message ∨
    msgFailureReason e = "Unknown error" := by
  rw [msgFailureReason]
  split_ifs <;> simp

/-- C3 counterexample: for the valid action id "abc123" and a successful
fetch whose `included` field is the empty array, `getFlowMessages` returns
an empty data list but appends no `FailedFlowRecord` at all (the claim
demands exactly one). -/
theorem c3_counterexample :
    (getFlowMessages "abc123" (.ok ⟨some []⟩) "t0" []).1 = [] ∧
    (getFlowMessages "abc123" (.ok ⟨some []⟩) "t0" []).2.1 = [] ∧
    ¬ ((getFlowMessages "abc123" (.ok ⟨some []⟩) "t0" []).2.1.length = 1) := by
  refine ⟨rfl, rfl, by decide⟩

/-- C3 (amended): `getFlowMessages` never raises; it appends exactly one
failure record and returns empty data when the id is invalid, when the
fetch throws, or when the response's `included` field is missing/not an
array; but when `included` is an array — even empty or without
`flow-message` items — it returns the filtered messages and appends
nothing. -/
theorem c3_get_flow_messages_degrades (id : String)
    (fr : Except JsError MessagesResponse) (now : String)
    (failed : List FailedFlowRecord) :
    (isValidId id = false →
      getFlowMessages id fr now failed =
        ([], failed ++ [⟨id, "Invalid action ID format", none, none⟩], 0)) ∧
    (∀ e, isValidId id = true → fr = .error e →
      (getFlowMessages id fr now failed).1 = [] ∧
      (getFlowMessages id fr now failed).2.1 =
        failed ++ [⟨id, msgFailureReason e, some (statusRepr e), some now⟩] ∧
      (msgFailureReason e = "Action not found (404)" ∨
       msgFailureReason e = "Authentication or permission error" ∨
       msgFailureReason e = "Rate limit exceeded" ∨
       msgFailureReason e = firstLine100 e.message ∨
       msgFailureReason e = "Unknown error")) ∧
    (∀ resp, isValidId id = true → fr = .ok resp → resp.included = none →
      getFlowMessages id fr now failed =
        ([], failed ++ [⟨id, "No flow messages found in response", none,
          none⟩], 1)) ∧
    (∀ resp items, isValidId id = true → fr = .ok resp →
      resp.included = some items →
      (getFlowMessages id fr now failed).2.1 = failed) := by
  refine ⟨?_, ?_, ?_, ?_⟩
  · intro hid
    simp [getFlowMessages, hid]
  · intro e hid hfr
    subst hfr
    refine ⟨?_, ?_, msgFailureReason_cases e⟩
    · simp [getFlowMessages, hid]
    · simp [getFlowMessages, hid]
  · intro resp hid hfr hinc
    subst hfr
    simp [getFlowMessages, hid, hinc]
  · intro resp items hid hfr hinc
    subst hfr
    simp [getFlowMessages, hid, hinc]

/-- C3 witness: an invalid id appends the invalid-format record; a 404 on a
valid id appends the 404 record and returns empty data. -/
theorem c3_get_flow_messages_degrades_witness :
    (getFlowMessages "badid!" (.ok ⟨some []⟩) "t0" []).2.1
      = [⟨"badid!", "Invalid action ID format", none, none⟩] ∧
    (getFlowMessages "abc123" (.error ⟨some 404, "nf", none⟩) "t0" []).1
      = [] ∧
    (getFlowMessages "abc123" (.error ⟨some 404, "nf", none⟩) "t0" []).2.1
      = [⟨"abc123", "Action not found (404)", some "404", some "t0"⟩] := by
  have h1 := (c3_get_flow_messages_degrades "badid!" (.ok ⟨some []⟩) "t0"
    []).1 (by decide)
  have h2 := (c3_get_flow_messages_degrades "abc123"
    (.error ⟨some 404, "nf", none⟩) "t0" []).2.1 ⟨some 404, "nf", none⟩
    (by decide) rfl
  refine ⟨?_, h2.1, ?_⟩
  · rw [h1]
    rfl
  · rw [h2.2.1]
    rfl

/-! ## Sync orchestrator `syncKlaviyoToAirtable` (server.cjs 607-825) -/

/-- A flow as read from the source: attribute fields may be absent. -/
structure KFlow where
  id : String
  name : Option String
  status : Option String
  triggerType : Option String
  created : Option String
  updated : Option String
  deriving Repr, DecidableEq

/-- A metric: only `id` and `attributes.name` are observed. -/
structure KMetric where
  id : String
  name : Option String
  deriving Repr, DecidableEq

/-- One bucket of a metric-aggregate response.  `count` is `some l` when
`measurements` exists and carries a `count` array (entries may be null),
and `none` when `measurements` or `count` is missing. -/
structure AggBucket where
  count : Option (List (Option ℚ))
  deriving Repr

/-- A metric-aggregate response as observed by the orchestrator.
`aggData = none` models a response whose `data` or `data.attributes` is
missing, so that reading `response.data.attributes.data` throws;
`aggData = some none` models a present `attributes` whose `data` is
missing (the `|| []` default applies); `aggData = some (some l)` is the
bucket list. -/
structure AggResponse where
  aggData : Option (Option (List AggBucket))
  deriving Repr

/-- The TypeError raised by reading `.attributes` of a missing `data`. -/
def typeErrorAgg : JsError :=
  ⟨none, "Cannot read properties of undefined (reading 'attributes')", none⟩

/-- Sum of one bucket's `count` array, nulls counted as 0
(server.cjs 707-712). -/
def bucketSum (b : AggBucket) : ℚ :=
  match b.count with
  | some l => (l.map (fun x => x.getD 0)).sum
  | none => 0

/-- The guarded reduce computing `currentCount` / `prevCount`
(server.cjs 705-723): 0 unless the first bucket carries a `count`
measurement, else the sum over all buckets. -/
def computeCount (data : List AggBucket) : ℚ :=
  match data with
  | [] => 0
  | b0 :: _ =>
    match b0.count with
    | some _ => (data.map bucketSum).sum
    | none => 0

/-- `prevCount > 0 ? ((currentCount - prevCount) / prevCount) * 100 : 0`
(server.cjs line 725). -/
def countGrowthCalc (prevCount currentCount : ℚ) : ℚ :=
  if prevCount > 0 then ((currentCount - prevCount) / prevCount) * 100 else 0

/-- The fields of the record pushed for one flow (server.cjs 728-743). -/
structure SinkFields where
  flowId : String
  flowName : String
  statusField : String
  triggerType : String
  createdAt : String
  updatedAt : String
  currentPeriodCount : ℚ
  previousPeriodCount : ℚ
  countGrowth : ℚ
  messageCount : Nat
  actionCount : Nat
  metricCount : Nat
  deriving Repr

/-- An entry of the orchestrator's `flowErrors` list (server.cjs 747-750). -/
structure FlowError where
  flowId : String
  error : String
  deriving Repr, DecidableEq

/-- Network outcomes available to one flow's enrichment. -/
structure FlowEnv where
  actionsFetch : Except JsError ActionsResponse
  messagesFetch : String → Except JsError MessagesResponse
  currentAgg : Except JsError AggResponse
  prevAgg : Except JsError AggResponse

/-- One iteration of the per-flow loop (server.cjs 645-753), up to but not
including the surrounding try/catch: the enrichment result (`.error` when
the body would throw) together with the updated `failedFlows` accumulator
of the Klaviyo client. -/
def processFlow (now : String) (metrics : List KMetric) (fenv : FlowEnv)
    (flow : KFlow) (failed0 : List FailedFlowRecord) :
    Except JsError SinkFields × List FailedFlowRecord :=
  let actionsOut := getFlowActions flow.id fenv.actionsFetch now failed0
  let actions := actionsOut.1
  let failedA := actionsOut.2.1
  let msgStep := actions.foldl
    (fun (st : List KItem × List FailedFlowRecord) a =>
      let r := getFlowMessages (a.id.getD "") (fenv.messagesFetch (a.id.getD ""))
        now st.2
      (st.1 ++ r.1, r.2.1))
    ([], failedA)
  let messages := msgStep.1
  let failed1 := msgStep.2
  let flowMetrics := metrics.filter (fun m =>
    match m.name with
    | some nm => strIncludes nm flow.id
    | none => false)
  let result : Except JsError SinkFields :=
    match fenv.currentAgg with
    | .error e => .error e
    | .ok cur =>
      match cur.aggData with
      | none => .error typeErrorAgg
      | some curD =>
        match fenv.prevAgg with
        | .error e => .error e
        | .ok prev =>
          match prev.aggData with
          | none => .error typeErrorAgg
          | some prevD =>
            let currentCount := computeCount (curD.getD [])
            let prevCount := computeCount (prevD.getD [])
            .ok { flowId := flow.id
                  flowName := flow.name.getD "Unnamed Flow"
                  statusField := flow.status.getD "unknown"
                  triggerType := flow.triggerType.getD "unknown"
                  createdAt := flow.created.getD now
                  updatedAt := flow.updated.getD now
                  currentPeriodCount := currentCount
                  previousPeriodCount := prevCount
                  countGrowth := countGrowthCalc prevCount currentCount
                  messageCount := messages.length
                  actionCount := actions.length
                  metricCount := flowMetrics.length }
  (result, failed1)

/-- A flow's enrichment outcome; it does not depend on the failure
accumulator handed in. -/
def enrichFlow (now : String) (metrics : List KMetric) (fenv : FlowEnv)
    (flow : KFlow) : Except JsError SinkFields :=
  (processFlow now metrics fenv flow []).1

/-- The environment of one whole run. -/
structure SyncEnv where
  now : String
  klaviyoTest : Except JsError Unit
  airtableTest : Except JsError Unit
  flowsFetch : Except JsError (List KFlow)
  metricsFetch : Except JsError (List KMetric)
  flowEnv : String → FlowEnv
  createFlows : List SinkFields → Except JsError Nat
  createFailed : List FailedFlowRecord → Except JsError Nat

/-- The returned report (server.cjs 809-820). -/
structure SyncReport where
  success : Bool
  flowsProcessed : Nat
  flowsCreated : Nat
  flowsWithErrors : Nat
  failedFlowsReported : Nat
  totalMetrics : Nat
  totalMessages : Nat
  totalFailedFlows : Nat
  deriving Repr, DecidableEq

/-- Observable outcome of a run: the returned report or thrown error, the
rows handed to `createRecords('Flows', ...)` (empty when that call was
skipped), the failure records handed to `createRecords('Failed_Flows', ...)`,
and the internal `flowErrors` list. -/
structure SyncOutcome where
  result : Except JsError SyncReport
  flowsSubmitted : List SinkFields
  failedSubmitted : List FailedFlowRecord
  flowErrorsLog : List FlowError

/-- `syncKlaviyoToAirtable` (server.cjs 607-825).  Note: the code reads
`flow.messageCount` (absent on source flows) for `totalMessages`, so that
total is always 0. -/
def syncModel (env : SyncEnv) : SyncOutcome :=
  match env.klaviyoTest with
  | .error e => ⟨.error e, [], [], []⟩
  | .ok _ =>
    match env.airtableTest with
    | .error e => ⟨.error e, [], [], []⟩
    | .ok _ =>
      match env.flowsFetch with
      | .error e => ⟨.error e, [], [], []⟩
      | .ok flows =>
        match env.metricsFetch with
        | .error e => ⟨.error e, [], [], []⟩
        | .ok metrics =>
          let step := fun (st : List SinkFields × List FlowError ×
              List FailedFlowRecord) (flow : KFlow) =>
            let pr := processFlow env.now metrics (env.flowEnv flow.id) flow
              st.2.2
            match pr.1 with
            | .ok rec => (st.1 ++ [rec], st.2.1, pr.2)
            | .error e => (st.1, st.2.1 ++ [⟨flow.id, e.message⟩], pr.2)
          let folded := flows.foldl step ([], [], [])
          let transformed := folded.1
          let flowErrors := folded.2.1
          let failedFlows := folded.2.2
          let flowRes : Except JsError Nat :=
            if transformed.isEmpty then .ok 0
            else env.createFlows transformed
          match flowRes with
          | .error e => ⟨.error e, transformed, [], flowErrors⟩
          | .ok nCreated =>
            let nFailedCreated :=
              if failedFlows.isEmpty then 0
              else
                match env.createFailed failedFlows with
                | .ok n => n
                | .error _ => 0
            ⟨.ok { success := true
                   flowsProcessed := flows.length
                   flowsCreated := nCreated
                   flowsWithErrors := flowErrors.length
                   failedFlowsReported := nFailedCreated
                   totalMetrics := metrics.length
                   totalMessages := 0
                   totalFailedFlows := failedFlows.length },
              transformed,
              (if failedFlows.isEmpty then [] else failedFlows),
              flowErrors⟩

/-- Whether an `Except` is an error. -/
def exceptFailed {ε α : Type} : Except ε α → Bool
  | .error _ => true
  | .ok _ => false

lemma getFlowActions_data_indep (flowId : String)
    (fr : Except JsError ActionsResponse) (now : String)
    (f g : List FailedFlowRecord) :
    (getFlowActions flowId fr now f).1 = (getFlowActions flowId fr now g).1 := by
  rw [getFlowActions.eq_def, getFlowActions.eq_def]
  by_cases hid : isValidId flowId
  · simp only [hid]
    cases fr with
    | error e => simp
    | ok resp =>
      cases hd : resp.data with
      | none => simp [hd]
      | some acts =>
        cases acts with
        | nil => simp [hd]
        | cons a t =>
          by_cases ht : a.type = some "flow-action" <;> simp [hd, ht]
  · have : isValidId flowId = false := by simpa using hid
    simp [this]

lemma getFlowActions_failed_id (flowId : String)
    (fr : Except JsError ActionsResponse) (now : String)
    (f : List FailedFlowRecord) :
    (getFlowActions flowId fr now f).2.1 = f := by
  rw [getFlowActions.eq_def]
  by_cases hid : isValidId flowId
  · simp only [hid]
    cases fr with
    | error e => simp
    | ok resp =>
      cases hd : resp.data with
      | none => simp [hd]
      | some acts =>
        cases acts with
        | nil => simp [hd]
        | cons a t =>
          by_cases ht : a.type = some "flow-action" <;> simp [hd, ht]
  · have : isValidId flowId = false := by simpa using hid
    simp [this]

lemma getFlowMessages_data_indep (id : String)
    (fr : Except JsError MessagesResponse) (now : String)
    (f g : List FailedFlowRecord) :
    (getFlowMessages id fr now f).1 = (getFlowMessages id fr now g).1 := by
  rw [getFlowMessages.eq_def, getFlowMessages.eq_def]
  by_cases hid : isValidId id
  · simp only [hid]
    cases fr with
    | error e => simp
    | ok resp => cases hinc : resp.included <;> simp [hinc]
  · have : isValidId id = false := by simpa using hid
    simp [this]

lemma msgFold_data_indep (now : String) (fenv : FlowEnv) :
    ∀ (actions : List KItem) (ms : List KItem)
      (f g : List FailedFlowRecord),
      (actions.foldl (fun (st : List KItem × List FailedFlowRecord) a =>
        let r := getFlowMessages (a.id.getD "")
          (fenv.messagesFetch (a.id.getD "")) now st.2
        (st.1 ++ r.1, r.2.1)) (ms, f)).1
      = (actions.foldl (fun (st : List KItem × List FailedFlowRecord) a =>
        let r := getFlowMessages (a.id.getD "")
          (fenv.messagesFetch (a.id.getD "")) now st.2
        (st.1 ++ r.1, r.2.1)) (ms, g)).1 := by
  intro actions
  induction actions with
  | nil => intro ms f g; rfl
  | cons a rest ih =>
    intro ms f g
    simp only [List.foldl_cons]
    rw [getFlowMessages_data_indep (a.id.getD "")
      (fenv.messagesFetch (a.id.getD "")) now f g]
    exact ih _ _ _

lemma processFlow_fst (now : String) (metrics : List KMetric)
    (fenv : FlowEnv) (flow : KFlow) (failed0 : List FailedFlowRecord) :
    (processFlow now metrics fenv flow failed0).1
      = enrichFlow now metrics fenv flow := by
  rw [enrichFlow, processFlow, processFlow]
  simp only
  rw [getFlowActions_data_indep flow.id fenv.actionsFetch now failed0 []]
  rw [msgFold_data_indep now fenv _ []
    (getFlowActions flow.id fenv.actionsFetch now failed0).2.1
    (getFlowActions flow.id fenv.actionsFetch now []).2.1]

lemma sync_fold_spec (now : String) (metrics : List KMetric)
    (fE : String → FlowEnv) :
    ∀ (flows : List KFlow)
      (st : List SinkFields × List FlowError × List FailedFlowRecord),
      (flows.foldl (fun (st : List SinkFields × List FlowError ×
          List FailedFlowRecord) (flow : KFlow) =>
        let pr := processFlow now metrics (fE flow.id) flow st.2.2
        match pr.1 with
        | .ok rec => (st.1 ++ [rec], st.2.1, pr.2)
        | .error e => (st.1, st.2.1 ++ [⟨flow.id, e.message⟩], pr.2)) st).2.1
      = st.2.1 ++ flows.filterMap (fun flow =>
          match enrichFlow now metrics (fE flow.id) flow with
          | .ok _ => none
          | .error e => some ⟨flow.id, e.message⟩) := by
  intro flows
  induction flows with
  | nil => intro st; simp
  | cons flow rest ih =>
    intro st
    simp only [List.foldl_cons, List.filterMap_cons]
    cases he : enrichFlow now metrics (fE flow.id) flow with
    | ok rec =>
      have hp : (processFlow now metrics (fE flow.id) flow st.2.2).1
          = .ok rec := by
        rw [processFlow_fst, he]
      simp only [hp]
      exact ih _
    | error e =>
      have hp : (processFlow now metrics (fE flow.id) flow st.2.2).1
          = .error e := by
        rw [processFlow_fst, he]
      simp only [hp]
      rw [ih _]
      simp

lemma length_filterMap_eq {α β : Type} (f : α → Option β) (p : α → Bool)
    (hfp : ∀ x, (f x).isSome = p x) :
    ∀ l : List α, (l.filterMap f).length = (l.filter p).length := by
  intro l
  induction l with
  | nil => rfl
  | cons a rest ih =>
    simp only [List.filterMap_cons, List.filter_cons]
    cases hf : f a with
    | none =>
      have hp : p a = false := by rw [← hfp a, hf]; rfl
      simp [hp, ih]
    | some b =>
      have hp : p a = true := by rw [← hfp a, hf]; rfl
      simp [hp, ih]

/-- C1: when both connection tests, the flows fetch and the metrics fetch
succeed (and the sink accepts the created rows), every per-flow enrichment
failure is caught at the per-flow boundary and recorded as a
{flowId, message} entry in the flow-errors list, processing continues with
the remaining flows (the run returns a report instead of throwing), and
the report's flowsWithErrors equals the number of flows whose enrichment
failed. -/
theorem c1_per_flow_failures_isolated (env : SyncEnv) (flows : List KFlow)
    (metrics : List KMetric)
    (hk : env.klaviyoTest = .ok ()) (ha : env.airtableTest = .ok ())
    (hf : env.flowsFetch = .ok flows) (hm : env.metricsFetch = .ok metrics)
    (hc : ∀ rs, ∃ n, env.createFlows rs = .ok n) :
    ∃ report, (syncModel env).result = .ok report ∧
      (syncModel env).flowErrorsLog = flows.filterMap (fun flow =>
        match enrichFlow env.now metrics (env.flowEnv flow.id) flow with
        | .ok _ => none
        | .error e => some ⟨flow.id, e.message⟩) ∧
      report.flowsWithErrors = (flows.filter (fun flow =>
        exceptFailed (enrichFlow env.now metrics
          (env.flowEnv flow.id) flow))).length ∧
      report.flowsProcessed = flows.length := by
  have hspec := sync_fold_spec env.now metrics env.flowEnv flows ([], [], [])
  simp only [syncModel, hk, ha, hf, hm]
  set folded := flows.foldl (fun (st : List SinkFields × List FlowError ×
      List FailedFlowRecord) (flow : KFlow) =>
    let pr := processFlow env.now metrics (env.flowEnv flow.id) flow st.2.2
    match pr.1 with
    | .ok rec => (st.1 ++ [rec], st.2.1, pr.2)
    | .error e => (st.1, st.2.1 ++ [⟨flow.id, e.message⟩], pr.2)) ([], [], [])
    with hfolded
  by_cases hte : folded.1.isEmpty
  · simp only [hte, if_true]
    refine ⟨_, rfl, ?_, ?_, rfl⟩
    · simpa using hspec
    · simp only []
      rw [hspec]
      simp only [List.nil_append]
      refine length_filterMap_eq _ _ ?_ flows
      intro x
      cases he : enrichFlow env.now metrics (env.flowEnv x.id) x <;>
        simp [exceptFailed, he]
  · obtain ⟨n, hn⟩ := hc folded.1
    simp only [hte, if_false, hn]
    refine ⟨_, rfl, ?_, ?_, rfl⟩
    · simpa using hspec
    · simp only []
      rw [hspec]
      simp only [List.nil_append]
      refine length_filterMap_eq _ _ ?_ flows
      intro x
      cases he : enrichFlow env.now metrics (env.flowEnv x.id) x <;>
        simp [exceptFailed, he]

/-- A concrete run with two flows in which the second flow's current-period
metric-aggregate query fails with a 500. -/
def splitRunEnv : SyncEnv :=
  { now := "t0"
    klaviyoTest := .ok ()
    airtableTest := .ok ()
    flowsFetch := .ok
      [⟨"GOOD1", some "Good", some "active", some "list", some "c", some "u"⟩,
       ⟨"BAD1", some "Bad", none, none, none, none⟩]
    metricsFetch := .ok []
    flowEnv := fun fid =>
      if fid == "BAD1" then
        { actionsFetch := .ok ⟨some []⟩
          messagesFetch := fun _ => .ok ⟨some []⟩
          currentAgg := .error ⟨some 500, "Klaviyo server error (500)", none⟩
          prevAgg := .ok ⟨some (some [])⟩ }
      else
        { actionsFetch := .ok ⟨some []⟩
          messagesFetch := fun _ => .ok ⟨some []⟩
          currentAgg := .ok ⟨some (some [])⟩
          prevAgg := .ok ⟨some (some [])⟩ }
    createFlows := fun rs => .ok rs.length
    createFailed := fun rs => .ok rs.length }

/-- C1 witness: in the two-flow run where only BAD1's aggregate query
throws, the run returns a report, the flow-errors list holds exactly the
{flowId, message} entry for BAD1, and flowsWithErrors = 1. -/
theorem c1_per_flow_failures_isolated_witness :
    ∃ report, (syncModel splitRunEnv).result = .ok report ∧
      (syncModel splitRunEnv).flowErrorsLog
        = [⟨"BAD1", "Klaviyo server error (500)"⟩] ∧
      report.flowsWithErrors = 1 ∧
      report.flowsProcessed = 2 := by
  obtain ⟨report, hres, hlog, hcnt, hproc⟩ :=
    c1_per_flow_failures_isolated splitRunEnv
      [⟨"GOOD1", some "Good", some "active", some "list", some "c", some "u"⟩,
       ⟨"BAD1", some "Bad", none, none, none, none⟩]
      [] rfl rfl rfl rfl (fun rs => ⟨rs.length, rfl⟩)
  refine ⟨report, hres, ?_, ?_, hproc⟩
  · rw [hlog]
    rfl
  · rw [hcnt]
    rfl

/-- The end-to-end scenario of C7: two flows; flow A has one action with
two messages; the lookup of flow B's action (the per-action fetch carrying
the include parameter) returns 404; everything else succeeds. -/
def c7Env : SyncEnv :=
  { now := "t0"
    klaviyoTest := .ok ()
    airtableTest := .ok ()
    flowsFetch := .ok
      [⟨"A1", some "Flow A", some "active", some "list", some "c", some "u"⟩,
       ⟨"B1", some "Flow B", some "active", some "list", some "c", some "u"⟩]
    metricsFetch := .ok []
    flowEnv := fun fid =>
      if fid == "A1" then
        { actionsFetch := .ok ⟨some [⟨some "ACTA", some "flow-action",
            some "Action A", some "SEND_EMAIL", some "c", some "u"⟩]⟩
          messagesFetch := fun _ => .ok ⟨some
            [some ⟨some "MSG1", some "flow-message", some "Msg 1", none,
              none, none⟩,
             some ⟨some "MSG2", some "flow-message", some "Msg 2", none,
              none, none⟩]⟩
          currentAgg := .ok ⟨some (some [])⟩
          prevAgg := .ok ⟨some (some [])⟩ }
      else
        { actionsFetch := .ok ⟨some [⟨some "ACTB", some "flow-action",
            some "Action B", some "SEND_EMAIL", some "c", some "u"⟩]⟩
          messagesFetch := fun _ => .error ⟨some 404,
            "Action not found (ID: ACTB)", none⟩
          currentAgg := .ok ⟨some (some [])⟩
          prevAgg := .ok ⟨some (some [])⟩ }
    createFlows := fun rs => .ok rs.length
    createFailed := fun rs => .ok rs.length }

/-- C7: in that scenario the run reports flowsProcessed = 2,
flowsCreated = 2, flowsWithErrors = 0, failedFlowsReported >= 1 (the
failure record produced for flow B's action), and exactly 2 records are
submitted to the primary Flows table. -/
theorem c7_end_to_end_scenario :
    ∃ report, (syncModel c7Env).result = .ok report ∧
      report.flowsProcessed = 2 ∧
      report.flowsCreated = 2 ∧
      report.flowsWithErrors = 0 ∧
      1 ≤ report.failedFlowsReported ∧
      (syncModel c7Env).flowsSubmitted.length = 2 := by
  refine ⟨⟨true, 2, 2, 0, 1, 0, 0, 1⟩, ?_, rfl, rfl, rfl, by norm_num, ?_⟩
  · rfl
  · rfl

/-- C9: a flow's countGrowth is computed as
`prev > 0 ? ((cur - prev) / prev) * 100 : 0`: it equals
((cur - prev) / prev) * 100 when prev > 0 and 0 when prev = 0; in
particular prev = 0, cur = 50 gives 0 and prev = 100, cur = 150 gives
50. -/
theorem c9_count_growth :
    (∀ now metrics fenv flow rec,
      enrichFlow now metrics fenv flow = .ok rec →
      rec.countGrowth
        = countGrowthCalc rec.previousPeriodCount rec.currentPeriodCount) ∧
    (∀ prevCount currentCount : ℚ, 0 < prevCount →
      countGrowthCalc prevCount currentCount
        = ((currentCount - prevCount) / prevCount) * 100) ∧
    (∀ currentCount : ℚ, countGrowthCalc 0 currentCount = 0) ∧
    countGrowthCalc 0 50 = 0 ∧
    countGrowthCalc 100 150 = 50 := by
  refine ⟨?_, ?_, ?_, ?_, ?_⟩
  · intro now metrics fenv flow rec hok
    rw [enrichFlow, processFlow] at hok
    simp only at hok
    split at hok
    · simp at hok
    · split at hok
      · simp at hok
      · split at hok
        · simp at hok
        · split at hok
          · simp at hok
          · simp only [Except.ok.injEq] at hok
            rw [← hok]
  · intro prevCount currentCount hpos
    rw [countGrowthCalc, if_pos hpos]
  · intro currentCount
    rw [countGrowthCalc, if_neg (by norm_num)]
  · rw [countGrowthCalc, if_neg (by norm_num)]
  · rw [countGrowthCalc, if_pos (by norm_num)]
    norm_num

/-- C9 witness: the growth formula evaluated at the two quoted inputs. -/
theorem c9_count_growth_witness :
    countGrowthCalc 100 150 = 50 ∧ countGrowthCalc 0 50 = 0 := by
  have h := c9_count_growth
  have h2 := h.2.1 100 150 (by norm_num)
  refine ⟨?_, h.2.2.1 50⟩
  rw [h2]
  norm_num

end FlowScribe
